import Mathlib

/-! # Verification of the permiscard signed-credential issuance and verification protocol

Shallow embedding of the QR-credential code of the permiscard repository:

* `src/server/services/qr-crypto.ts` — key material, `generateQRPayload`,
  `verifyQRSignature`, `getPublicKey`;
* the `/api/scans/verify` route and the card PDF URI construction
  (`src/client/public/sw.js`);
* the client-side scanner `QRScanner.verifyQRCode` / `QRScanner.verifyOffline`
  (`src/unnamed/part_001`) and the verification cache `OfflineStorage`
  (`src/unnamed/part_002`).

Byte strings are `List Nat` with entries below 256.  Node's `Buffer` base64
codec is modelled exactly: encoding is standard (RFC 4648 section 4) base64
with padding, decoding is lenient — characters outside the base64 alphabet
(including `=`) are skipped and trailing bits are dropped.  The Ed25519
primitive of Node `crypto` is abstracted as a `CryptoPrimitive` whose keys are
indices: each index names one keypair produced by one `generateKeyPairSync`
call (or supplied through the environment).
-/

namespace Permiscard

/-! ## Bytes and ASCII strings -/

/-- `Buffer.from(str)` for ASCII text: the UTF-8 bytes of a string.  Modelled
for code points below 128, where UTF-8 is the identity on code points; all
strings serialized by the credential code are ASCII under the `jsonSafe`
hypothesis used throughout. -/
def strBytes (s : String) : List Nat :=
  s.data.map Char.toNat

/-- `buffer.toString()` for ASCII bytes: decode bytes back into a string.
Modelled for bytes below 128 (one code point per byte). -/
def bytesToStr (bs : List Nat) : String :=
  String.mk (bs.map Char.ofNat)

/-! ## Base64, Node `Buffer` semantics -/

/-- The standard base64 alphabet, in value order (RFC 4648 section 4) — the
alphabet used by `Buffer.prototype.toString('base64')`. -/
def b64Chars : List Char :=
  "ABCDEFGHIJKLMNOPQRSTUVWXYZabcdefghijklmnopqrstuvwxyz0123456789+/".data

/-- The character standing for a 6-bit value. -/
def valToChar (v : Nat) : Char :=
  b64Chars.getD v 'A'

/-- The 6-bit value of an alphabet character; `none` for every character
outside the alphabet (Node's decoder skips those). -/
def charToVal (c : Char) : Option Nat :=
  let i := b64Chars.indexOf c
  if i < 64 then some i else none

/-- Standard base64 encoding of a byte list, with `=` padding — the output
shape of `Buffer.from(bytes).toString('base64')`. -/
def b64encodeBytes : List Nat → List Char
  | [] => []
  | [b0] =>
    [valToChar (b0 / 4), valToChar (b0 % 4 * 16), '=', '=']
  | [b0, b1] =>
    [valToChar (b0 / 4), valToChar (b0 % 4 * 16 + b1 / 16), valToChar (b1 % 16 * 4), '=']
  | b0 :: b1 :: b2 :: rest =>
    valToChar (b0 / 4) :: valToChar (b0 % 4 * 16 + b1 / 16) ::
    valToChar (b1 % 16 * 4 + b2 / 64) :: valToChar (b2 % 64) :: b64encodeBytes rest

def b64encode (bs : List Nat) : String :=
  String.mk (b64encodeBytes bs)

/-- Reassemble bytes from the 6-bit values of the alphabet characters that
survived filtering.  A trailing group of fewer than four values contributes
`0`, `1` or `2` bytes, its unused low bits dropped — Node's lenient
behaviour. -/
def b64decodeVals : List Nat → List Nat
  | [] => []
  | [_] => []
  | [c0, c1] => [c0 * 4 + c1 / 16]
  | [c0, c1, c2] => [c0 * 4 + c1 / 16, c1 % 16 * 16 + c2 / 4]
  | c0 :: c1 :: c2 :: c3 :: rest =>
    (c0 * 4 + c1 / 16) :: (c1 % 16 * 16 + c2 / 4) :: (c2 % 4 * 64 + c3) :: b64decodeVals rest

/-- `Buffer.from(s, 'base64')`: skip every character outside the alphabet
(`=` included), then reassemble bytes. -/
def b64decode (s : String) : List Nat :=
  b64decodeVals (s.data.filterMap charToVal)

/-! ## Decimal digits (JSON number serialization) -/

/-- One decimal digit character. -/
def digitCh (n : Nat) : Char :=
  Char.ofNat (48 + n % 10)

/-- Digit-printing worker, structurally recursive on a fuel bound so that it
reduces inside the kernel; `fuel ≥ n` makes the fuel irrelevant. -/
def natDigitsGo (fuel n : Nat) : List Char :=
  match fuel with
  | 0 => [digitCh n]
  | f + 1 => if n < 10 then [digitCh n] else natDigitsGo f (n / 10) ++ [digitCh (n % 10)]

/-- Decimal digit string of a natural number, most significant first —
the JSON serialization of a non-negative integer. -/
def natDigits (n : Nat) : List Char :=
  natDigitsGo n n

/-- Numeric value of a digit string. -/
def digitsVal (ds : List Char) : Nat :=
  ds.foldl (fun a c => a * 10 + (c.toNat - 48)) 0

/-! ## The credential payload and its JSON form -/

/-- `QRPayload` of `qr-crypto.ts`: `{ id: string; ts: number; v: number }`. -/
structure QRPayload where
  id : String
  ts : Nat
  v : Nat
deriving DecidableEq

/-- The characters `\x7b"id":"` opening the canonical payload object. -/
def jsonPre1 : List Char := ['\x7b', '"', 'i', 'd', '"', ':', '"']

/-- The characters `,"ts":` between the `id` and `ts` fields. -/
def jsonMid1 : List Char := [',', '"', 't', 's', '"', ':']

/-- The characters `,"v":` between the `ts` and `v` fields. -/
def jsonMid2 : List Char := [',', '"', 'v', '"', ':']

/-- `JSON.stringify` of a `QRPayload` object with field order `id`, `ts`,
`v` — exactly the serialization in `generateQRPayload`, i.e. the text
`\x7b"id":"<id>","ts":<ts>,"v":<v>\x7d`.  Faithful when `id` needs no JSON
string escaping (`jsonSafe`). -/
def jsonStringify (q : QRPayload) : String :=
  String.mk (jsonPre1 ++ (q.id.data ++ ('"' ::
    (jsonMid1 ++ (natDigits q.ts ++ (jsonMid2 ++ (natDigits q.v ++ ['\x7d'])))))))

/-- A character that JSON.stringify emits verbatim inside a string literal,
restricted to ASCII: printable, not `"`, not a backslash. -/
def jsonSafeChar (c : Char) : Bool :=
  32 ≤ c.toNat && c.toNat < 128 && !(c == '"') && !(c == '\\')

def jsonSafe (s : String) : Bool :=
  s.data.all jsonSafeChar

/-- Consume an expected literal sequence of characters. -/
def stripPre : List Char → List Char → Option (List Char)
  | [], s => some s
  | _ :: _, [] => none
  | p :: ps, c :: cs => if p = c then stripPre ps cs else none

/-- Read a JSON string body up to the closing quote. -/
def takeTilQuote : List Char → Option (List Char × List Char)
  | [] => none
  | c :: cs =>
    if c = '"' then some ([], cs)
    else (takeTilQuote cs).map (fun r => (c :: r.1, r.2))

/-- Longest run of leading decimal digits. -/
def takeDigits : List Char → List Char × List Char
  | [] => ([], [])
  | c :: cs =>
    if c.isDigit then
      let r := takeDigits cs
      (c :: r.1, r.2)
    else ([], c :: cs)

/-- `JSON.parse(...) as QRPayload`, restricted to the canonical object shape
emitted by `generateQRPayload` (`\x7b"id":"…","ts":…,"v":…\x7d`); any other
text is malformed and yields `none`, matching the catch-all of
`verifyQRSignature`. -/
def parseQRJson (s : String) : Option QRPayload :=
  match stripPre jsonPre1 s.data with
  | none => none
  | some r1 =>
    match takeTilQuote r1 with
    | none => none
    | some (idCs, r2) =>
      match stripPre jsonMid1 r2 with
      | none => none
      | some r3 =>
        let tsP := takeDigits r3
        if tsP.1 = [] then none
        else
          match stripPre jsonMid2 tsP.2 with
          | none => none
          | some r5 =>
            let vP := takeDigits r5
            if vP.1 = [] then none
            else if vP.2 = ['\x7d'] then
              some ⟨String.mk idCs, digitsVal tsP.1, digitsVal vP.1⟩
            else none

/-! ## The signature primitive and the key material of `qr-crypto.ts` -/

/-- Abstraction of the Node `crypto` Ed25519 sign/verify pair.  A key index
names one keypair: `sign k` signs with the private half of keypair `k`,
`verify k` checks with the public half of keypair `k`.  The Ed25519 facts the
proofs rely on are stated as the explicit properties below, never assumed
globally. -/
structure CryptoPrimitive where
  sign : Nat → List Nat → List Nat
  verify : Nat → List Nat → List Nat → Bool

/-- A signature made with keypair `k` verifies against keypair `k`. -/
def CryptoPrimitive.Pairing (C : CryptoPrimitive) : Prop :=
  ∀ k m, C.verify k m (C.sign k m) = true

/-- Only the canonical signature of `m` under keypair `k` verifies
(deterministic signatures, strong unforgeability). -/
def CryptoPrimitive.UniqueSig (C : CryptoPrimitive) : Prop :=
  ∀ k m s, C.verify k m s = true → s = C.sign k m

/-- Distinct keypairs sign the same message differently. -/
def CryptoPrimitive.KeySep (C : CryptoPrimitive) : Prop :=
  ∀ k k' m, k ≠ k' → C.sign k m ≠ C.sign k' m

/-- `PRIVATE_KEY` of `qr-crypto.ts`: when `QR_PRIVATE_KEY` is not in the
environment, the private half of the keypair made by the FIRST
`generateKeyPairSync('ed25519', …)` call — keypair index 1. -/
def PRIVATE_KEY : Nat := 1

/-- `PUBLIC_KEY` of `qr-crypto.ts`: when `QR_PUBLIC_KEY` is not in the
environment, the public half of the keypair made by the SECOND, independent
`generateKeyPairSync('ed25519', …)` call — keypair index 2, a different
keypair from `PRIVATE_KEY`'s. -/
def PUBLIC_KEY : Nat := 2

/-- `getPublicKey()` returns the module's `PUBLIC_KEY`. -/
def getPublicKey : Nat := PUBLIC_KEY

/-- The `{ payload, signature }` pair returned by `generateQRPayload`. -/
structure SignedCredential where
  payload : String
  signature : String
deriving DecidableEq

/-- `generateQRPayload(permitId)` of `qr-crypto.ts`, with `Date.now()` passed
in as `now` and the signing key as `privKey` (the source reads the module
constant `PRIVATE_KEY`; the parameter covers both the env-provisioned and the
default key).  Builds `{ id, ts, v: 1 }`, serializes it, signs the exact
serialized bytes, and base64-encodes payload and signature.  There is no
input validation of any kind. -/
def generateQRPayload (C : CryptoPrimitive) (privKey : Nat) (permitId : String)
    (now : Nat) : SignedCredential :=
  let payload := jsonStringify ⟨permitId, now, 1⟩
  { payload := b64encode (strBytes payload)
    signature := b64encode (C.sign privKey (strBytes payload)) }

/-- `maxAge` of `verifyQRSignature`: 24 hours in milliseconds. -/
def maxAge : Nat := 24 * 60 * 60 * 1000

/-- `verifyQRSignature(payload, signature)` of `qr-crypto.ts`, with
`Date.now()` as `now` and the verification key as `pubKey` (the source reads
the module constant `PUBLIC_KEY`).  Base64-decodes both arguments leniently,
checks the signature over the decoded payload bytes, parses the payload as
JSON, and rejects credentials whose `ts` is more than `maxAge` in the past.
Every failure returns `none`, mirroring the try/catch that maps every
exception to `null`. -/
def verifyQRSignature (C : CryptoPrimitive) (pubKey : Nat)
    (payload signature : String) (now : Nat) : Option QRPayload :=
  let payloadBytes := b64decode payload
  let signatureBytes := b64decode signature
  if C.verify pubKey payloadBytes signatureBytes then
    match parseQRJson (bytesToStr payloadBytes) with
    | none => none
    | some q => if (maxAge : Int) < (now : Int) - (q.ts : Int) then none else some q
  else none

/-! ## URI parsing (`new URL` and `URLSearchParams` as used by the code) -/

/-- Split a character list at the first occurrence of `t`. -/
def splitFirst (t : Char) : List Char → Option (List Char × List Char)
  | [] => none
  | c :: cs =>
    if c = t then some ([], cs)
    else (splitFirst t cs).map (fun r => (c :: r.1, r.2))

/-- A WHATWG URL scheme: a letter followed by letters, digits, `+`, `-`, `.`;
`new URL` throws on anything else. -/
def schemeOK : List Char → Bool
  | [] => false
  | c :: rest =>
    c.isAlpha && rest.all (fun d => d.isAlpha || d.isDigit || d = '+' || d = '-' || d = '.')

/-- Value of a hexadecimal digit character, `none` otherwise. -/
def hexVal (c : Char) : Option Nat :=
  if c.isDigit then some (c.toNat - 48)
  else if 65 ≤ c.toNat && c.toNat ≤ 70 then some (c.toNat - 55)
  else if 97 ≤ c.toNat && c.toNat ≤ 102 then some (c.toNat - 87)
  else none

/-- Percent-decoding of one query value as `URLSearchParams` performs it:
`+` becomes a space, `%hh` becomes the byte `hh`; modelled for ASCII bytes. -/
def percentDecode : List Char → List Char
  | [] => []
  | '+' :: rest => ' ' :: percentDecode rest
  | '%' :: h1 :: h2 :: rest =>
    match hexVal h1, hexVal h2 with
    | some v1, some v2 => Char.ofNat (16 * v1 + v2) :: percentDecode rest
    | _, _ => '%' :: percentDecode (h1 :: h2 :: rest)
  | c :: rest => c :: percentDecode rest

/-- Split a query string on `&` into its raw segments. -/
def splitAmp : List Char → List (List Char)
  | [] => [[]]
  | c :: rest =>
    if c = '&' then [] :: splitAmp rest
    else
      match splitAmp rest with
      | [] => [[c]]
      | p :: ps => (c :: p) :: ps

/-- The decoded `(name, value)` pairs of a query string, in order:
segments split on `&` (empty segments dropped), each segment split at its
first `=` (`name` alone means value `""`), both sides percent-decoded —
the observable behaviour of `url.searchParams`. -/
def parseQueryPairs (q : String) : List (String × String) :=
  ((splitAmp q.data).filter (· ≠ [])).map fun seg =>
    match splitFirst '=' seg with
    | none => (String.mk (percentDecode seg), "")
    | some (k, v) => (String.mk (percentDecode k), String.mk (percentDecode v))

/-- `url.searchParams.get(name)`: the value of the first pair named `name`,
or `none`. -/
def searchGet (pairs : List (String × String)) (name : String) : Option String :=
  (pairs.find? (fun p => p.1 == name)).map (·.2)

/-- `new URL(s)`, restricted to what the routes observe: `none` when the
string has no valid scheme (the constructor throws); otherwise
`(protocol, hostname, query)` where `protocol` keeps its trailing colon.
`scheme://host?query` and `scheme://host/...?query` populate the hostname;
a scheme not followed by `//` yields hostname `""` (opaque path). -/
def parseURL (s : String) : Option (String × String × String) :=
  match splitFirst ':' s.data with
  | none => none
  | some (scheme, rest) =>
    if schemeOK scheme then
      let protocol := String.mk (scheme ++ [':'])
      if rest.take 2 = ['/', '/'] then
        let r2 := rest.drop 2
        let host := r2.takeWhile (fun c => !(c == '/') && !(c == '?') && !(c == '#'))
        let after := r2.dropWhile (fun c => !(c == '/') && !(c == '?') && !(c == '#'))
        match splitFirst '?' after with
        | none => some (protocol, String.mk host, "")
        | some (_, q) => some (protocol, String.mk host, String.mk (q.takeWhile (fun c => !(c == '#'))))
      else
        match splitFirst '?' rest with
        | none => some (protocol, "", "")
        | some (_, q) => some (protocol, "", String.mk (q.takeWhile (fun c => !(c == '#'))))
    else none

/-! ## The record model (`shared/schema.ts`) -/

/-- The holder fields the verification responses expose. -/
structure Fisher where
  nom : String
  prenoms : String
deriving DecidableEq

/-- A permit record with the fields the verification paths read.  Date
strings are modelled by their epoch-millisecond value (the code only ever
compares `new Date(dateExpiration)` against `new Date()`). -/
structure Permit where
  id : String
  fisher : Fisher
  numSerie : String
  zonePeche : String
  dateExpiration : Nat
  typePeche : String
  cardId : Option String
deriving DecidableEq

/-- The `permit` object embedded in both verification responses. -/
structure PermitView where
  fisher : Fisher
  numSerie : String
  zonePeche : String
  dateExpiration : Nat
  typePeche : String
deriving DecidableEq

def Permit.view (p : Permit) : PermitView :=
  ⟨p.fisher, p.numSerie, p.zonePeche, p.dateExpiration, p.typePeche⟩

/-- One row written by `storage.createScanLog`. -/
structure ScanLog where
  cardId : Option String
  agentId : Option String
  result : String
  mode : String
deriving DecidableEq

/-- The HTTP reply of `POST /api/scans/verify`: status code plus the JSON
body fields the route writes (`result` and the permit data are absent from
some error replies). -/
structure VerifyResponse where
  status : Nat
  result : Option String
  permit : Option PermitView
  isExpired : Option Bool
  message : String
deriving DecidableEq

/-- `QRScanResult` of the client scanner (`src/unnamed/part_001`). -/
structure QRScanResult where
  result : String
  permit : Option PermitView
  isExpired : Option Bool
  message : String
deriving DecidableEq

/-! ## The server verification route and the card URI -/

/-- The optical-code URI embedded in a card PDF
(`GET /api/cards/:permitId/pdf`): the stored credential strings are
interpolated verbatim, with no further encoding. -/
def cardQRUri (cred : SignedCredential) : String :=
  "peche://verify?d=" ++ cred.payload ++ "&s=" ++ cred.signature

/-- Steps 5–7 of `POST /api/scans/verify`: resolve the verified payload's
`id` against `storage.getPermit`, classify expiry against the clock, write
the single scan log row, and build the 200 reply (404 when the record is
unknown). -/
def resolveRecord (store : String → Option Permit) (now : Nat)
    (qrPayload : QRPayload) : VerifyResponse × List ScanLog :=
  match store qrPayload.id with
  | none => (⟨404, some "invalid", none, none, "Permit not found"⟩, [])
  | some permit =>
    let isExpired := permit.dateExpiration ≤ now
    (⟨200, some (if isExpired then "expired" else "valid"), some permit.view,
      some isExpired,
      if isExpired then "Permit has expired" else "Valid permit"⟩,
     [⟨permit.cardId, none, if isExpired then "expired" else "valid", "online"⟩])

/-- The body of `POST /api/scans/verify` once the `d` and `s` parameters are
in hand: reject the falsy empty string, check the signature and freshness
via `verifyQRSignature`, then resolve the record. -/
def scansVerifyChecked (C : CryptoPrimitive) (pubKey : Nat)
    (store : String → Option Permit) (now : Nat)
    (payload signature : String) : VerifyResponse × List ScanLog :=
  if payload = "" || signature = "" then
    (⟨400, none, none, none, "Missing QR code data"⟩, [])
  else
    match verifyQRSignature C pubKey payload signature now with
    | none => (⟨400, some "invalid", none, none, "Invalid QR code signature"⟩, [])
    | some qrPayload => resolveRecord store now qrPayload

/-- Steps 1–4 of `POST /api/scans/verify` once the URL constructor
succeeded: check scheme and host, read the `d` and `s` parameters (both the
absent and the empty string are falsy), and hand over to the checked body. -/
def scansVerifyParsed (C : CryptoPrimitive) (pubKey : Nat)
    (store : String → Option Permit) (now : Nat)
    (protocol hostname query : String) : VerifyResponse × List ScanLog :=
  if protocol ≠ "peche:" || hostname ≠ "verify" then
    (⟨400, none, none, none, "Invalid QR code format"⟩, [])
  else
    match searchGet (parseQueryPairs query) "d" with
    | none => (⟨400, none, none, none, "Missing QR code data"⟩, [])
    | some payload =>
      match searchGet (parseQueryPairs query) "s" with
      | none => (⟨400, none, none, none, "Missing QR code data"⟩, [])
      | some signature => scansVerifyChecked C pubKey store now payload signature

/-- `POST /api/scans/verify` (`src/client/public/sw.js`): parse the scanned
URI, check scheme and host, read the `d` and `s` parameters, verify the
credential, resolve the record, classify expiry, and — only on that last
branch — write one scan log.  Returns the HTTP reply together with the list
of `ScanLog` rows created during the call.  `store` is `storage.getPermit`;
`now` is the clock. -/
def scansVerify (C : CryptoPrimitive) (pubKey : Nat) (store : String → Option Permit)
    (now : Nat) (qrData : String) : VerifyResponse × List ScanLog :=
  match parseURL qrData with
  | none => (⟨500, none, none, none, "Failed to verify QR code"⟩, [])
  | some (protocol, hostname, query) =>
    scansVerifyParsed C pubKey store now protocol hostname query

/-! ## The client scanner (`src/unnamed/part_001`) -/

/-- `QRScanner.verifyOffline(qrData)`: parse the URI, take the raw `d`
parameter as the cache key (`const permitId = url.searchParams.get('d')`),
look it up in the offline cache, and classify expiry.  `cache` is
`offlineStorage.getCachedPermit`, whose entries `cachePermit` stores under
the key `permit.id` (`src/unnamed/part_002`).  No scan log is written
anywhere on this path. -/
def verifyOffline (cache : String → Option Permit) (now : Nat)
    (qrData : String) : QRScanResult :=
  match parseURL qrData with
  | none => ⟨"invalid", none, none, "Erreur lors de la vérification hors ligne"⟩
  | some (_, _, query) =>
    match searchGet (parseQueryPairs query) "d" with
    | none => ⟨"invalid", none, none, "QR code invalide - Données manquantes"⟩
    | some permitId =>
      if permitId = "" then ⟨"invalid", none, none, "QR code invalide - Données manquantes"⟩
      else
        match cache permitId with
        | none => ⟨"invalid", none, none, "Permit non trouvé en cache local"⟩
        | some cachedPermit =>
          let isExpired := cachedPermit.dateExpiration ≤ now
          ⟨if isExpired then "expired" else "valid", some cachedPermit.view, some isExpired,
           if isExpired then "Permis expiré" else "Permis valide (vérification hors ligne)"⟩

/-- `String.prototype.startsWith`, on code points. -/
def strStarts (p s : String) : Bool :=
  (stripPre p.data s.data).isSome

/-- `QRScanner.verifyQRCode(qrData)`: reject non-`peche://verify` text; when
`navigator.onLine` (`onLine`), try the online route — `fetchResult` is the
outcome of the `fetch`: `none` when it throws (network error, handled by the
surrounding catch, which returns a generic invalid result without any offline
retry), `some (ok, body)` an HTTP reply with its `response.ok` flag and
parsed body.  An ok reply is returned as-is; any non-ok reply, and the
offline state, fall through to `verifyOffline`. -/
def verifyQRCode (onLine : Bool) (fetchResult : Option (Bool × QRScanResult))
    (cache : String → Option Permit) (now : Nat) (qrData : String) : QRScanResult :=
  if !(strStarts "peche://verify" qrData) then
    ⟨"invalid", none, none, "QR code invalide - Format non reconnu"⟩
  else
    match onLine, fetchResult with
    | true, none => ⟨"invalid", none, none, "Erreur lors de la vérification du QR code"⟩
    | true, some (ok, body) => if ok then body else verifyOffline cache now qrData
    | false, _ => verifyOffline cache now qrData

/-! ## Concrete fixtures used by witnesses and counterexamples -/

/-- A concrete `CryptoPrimitive` satisfying `Pairing`, `UniqueSig` and
`KeySep`: the signature of `m` under keypair `k` is `k :: m`, and
verification recomputes it. -/
def consSig : CryptoPrimitive where
  sign := fun k m => k :: m
  verify := fun k m s => decide (s = k :: m)

/-- A character of the URL-safe base64 alphabet (RFC 4648 section 5). -/
def urlSafeB64Char (c : Char) : Bool :=
  c.isAlpha || c.isDigit || c == '-' || c == '_'

/-- A concrete permit record, expiring far in the future. -/
def pOne : Permit where
  id := "p1"
  fisher := ⟨"Ndiaye", "Awa"⟩
  numSerie := "SN-001"
  zonePeche := "Zone A"
  dateExpiration := 1900000000000
  typePeche := "artisanale"
  cardId := some "c1"

/-- A record store / verification cache holding exactly `pOne`, keyed by its
permit id — the key `cachePermit` uses. -/
def storeOne : String → Option Permit :=
  fun x => if x = "p1" then some pOne else none

/-- The credential issued for `pOne` (keypair 5 on both sides, timestamp 0). -/
def credOne : SignedCredential :=
  generateQRPayload consSig 5 "p1" 0

/-- The optical-code URI printed on `pOne`'s card. -/
def qrOne : String :=
  cardQRUri credOne

/-- `qrOne` with its signature parameter replaced by the base64 of other
bytes — a tampered scan. -/
def badSigQR : String :=
  "peche://verify?d=" ++ credOne.payload ++ "&s=QUFBQQ=="

/-! ## Lemmas: the base64 codec -/

theorem charToVal_valToChar : ∀ v < 64, charToVal (valToChar v) = some v := by
  decide

theorem charToVal_pad : charToVal '=' = none := by
  decide

theorem filterMap_valToChar_cons {v : Nat} (h : v < 64) (cs : List Char) :
    (valToChar v :: cs).filterMap charToVal = v :: cs.filterMap charToVal := by
  simp [List.filterMap_cons, charToVal_valToChar v h]

/-- Decoding inverts encoding on byte lists: Node's lenient decoder drops the
`=` padding and reassembles exactly the encoded bytes. -/
theorem b64_roundtrip : ∀ bs : List Nat, (∀ b ∈ bs, b < 256) →
    b64decodeVals ((b64encodeBytes bs).filterMap charToVal) = bs
  | [], _ => rfl
  | [b0], h => by
    have hb0 : b0 < 256 := h b0 (by simp)
    show b64decodeVals ((valToChar (b0 / 4) :: valToChar (b0 % 4 * 16) :: ['=', '=']).filterMap charToVal) = [b0]
    rw [filterMap_valToChar_cons (by omega), filterMap_valToChar_cons (by omega)]
    simp [List.filterMap_cons, charToVal_pad, b64decodeVals]
    omega
  | [b0, b1], h => by
    have hb0 : b0 < 256 := h b0 (by simp)
    have hb1 : b1 < 256 := h b1 (by simp)
    show b64decodeVals ((valToChar (b0 / 4) :: valToChar (b0 % 4 * 16 + b1 / 16) ::
      valToChar (b1 % 16 * 4) :: ['=']).filterMap charToVal) = [b0, b1]
    rw [filterMap_valToChar_cons (by omega), filterMap_valToChar_cons (by omega),
      filterMap_valToChar_cons (by omega)]
    simp [List.filterMap_cons, charToVal_pad, b64decodeVals]
    omega
  | b0 :: b1 :: b2 :: rest, h => by
    have hb0 : b0 < 256 := h b0 (by simp)
    have hb1 : b1 < 256 := h b1 (by simp)
    have hb2 : b2 < 256 := h b2 (by simp)
    have ih := b64_roundtrip rest (fun b hb => h b (by simp [hb]))
    show b64decodeVals ((valToChar (b0 / 4) :: valToChar (b0 % 4 * 16 + b1 / 16) ::
      valToChar (b1 % 16 * 4 + b2 / 64) :: valToChar (b2 % 64) ::
      b64encodeBytes rest).filterMap charToVal) = b0 :: b1 :: b2 :: rest
    rw [filterMap_valToChar_cons (by omega), filterMap_valToChar_cons (by omega),
      filterMap_valToChar_cons (by omega), filterMap_valToChar_cons (by omega)]
    show (b0 / 4 * 4 + (b0 % 4 * 16 + b1 / 16) / 16) ::
      ((b0 % 4 * 16 + b1 / 16) % 16 * 16 + (b1 % 16 * 4 + b2 / 64) / 4) ::
      ((b1 % 16 * 4 + b2 / 64) % 4 * 64 + b2 % 64) ::
      b64decodeVals ((b64encodeBytes rest).filterMap charToVal) = b0 :: b1 :: b2 :: rest
    rw [ih]
    congr 1 <;> [omega; congr 1] <;> [skip; congr 1] <;> omega

theorem b64decode_b64encode {bs : List Nat} (h : ∀ b ∈ bs, b < 256) :
    b64decode (b64encode bs) = bs := by
  simpa [b64decode, b64encode] using b64_roundtrip bs h

/-! ## Lemmas: decimal digits -/

theorem ofNat_digit_toNat : ∀ m < 10, (Char.ofNat (48 + m)).toNat = 48 + m := by
  decide

theorem digitCh_toNat (n : Nat) : (digitCh n).toNat = 48 + n % 10 :=
  ofNat_digit_toNat (n % 10) (Nat.mod_lt n (by omega))

theorem digitCh_isDigit (n : Nat) : (digitCh n).isDigit = true := by
  have h : ∀ m < 10, (Char.ofNat (48 + m)).isDigit = true := by decide
  exact h (n % 10) (Nat.mod_lt n (by omega))

theorem natDigitsGo_fuel : ∀ f1 f2 n : Nat, n ≤ f1 → n ≤ f2 →
    natDigitsGo f1 n = natDigitsGo f2 n
  | 0, f2, n, h1, _ => by
    have hn : n = 0 := by omega
    subst hn
    cases f2 <;> simp [natDigitsGo]
  | f1 + 1, f2, n, h1, h2 => by
    cases f2 with
    | zero =>
      have hn : n = 0 := by omega
      subst hn
      simp [natDigitsGo]
    | succ f2 =>
      by_cases h : n < 10
      · simp [natDigitsGo, h]
      · have hq1 : n / 10 ≤ f1 := by omega
        have hq2 : n / 10 ≤ f2 := by omega
        simp [natDigitsGo, h, natDigitsGo_fuel f1 f2 (n / 10) hq1 hq2]

theorem natDigits_eq_go (n f : Nat) (h : n ≤ f) : natDigits n = natDigitsGo f n :=
  natDigitsGo_fuel n f n le_rfl h

theorem natDigitsGo_isDigit : ∀ f n : Nat, ∀ c ∈ natDigitsGo f n, c.isDigit = true
  | 0, n => by simp [natDigitsGo, digitCh_isDigit]
  | f + 1, n => by
    by_cases h : n < 10
    · simp [natDigitsGo, h, digitCh_isDigit]
    · intro c hc
      simp only [natDigitsGo, h, if_false, List.mem_append, List.mem_singleton] at hc
      rcases hc with hc | hc
      · exact natDigitsGo_isDigit f (n / 10) c hc
      · rw [hc]; exact digitCh_isDigit _

theorem natDigits_isDigit (n : Nat) : ∀ c ∈ natDigits n, c.isDigit = true :=
  natDigitsGo_isDigit n n

theorem natDigitsGo_ne_nil (f n : Nat) : natDigitsGo f n ≠ [] := by
  cases f with
  | zero => simp [natDigitsGo]
  | succ f =>
    by_cases h : n < 10 <;> simp [natDigitsGo, h]

theorem natDigits_ne_nil (n : Nat) : natDigits n ≠ [] :=
  natDigitsGo_ne_nil n n

theorem digitsVal_append_one (ds : List Char) (c : Char) :
    digitsVal (ds ++ [c]) = digitsVal ds * 10 + (c.toNat - 48) := by
  simp [digitsVal, List.foldl_append]

theorem digitsVal_natDigitsGo : ∀ f n : Nat, n ≤ f → digitsVal (natDigitsGo f n) = n
  | 0, n, h => by
    have hn : n = 0 := by omega
    subst hn
    simp [natDigitsGo, digitsVal, digitCh_toNat]
  | f + 1, n, h => by
    by_cases h10 : n < 10
    · simp [natDigitsGo, h10, digitsVal, digitCh_toNat]
    · have ih := digitsVal_natDigitsGo f (n / 10) (by omega)
      simp only [natDigitsGo, h10, if_false]
      rw [digitsVal_append_one, ih, digitCh_toNat]
      omega

theorem digitsVal_natDigits (n : Nat) : digitsVal (natDigits n) = n :=
  digitsVal_natDigitsGo n n le_rfl

/-- Every digit the printer emits is an ASCII code point below 128. -/
theorem natDigitsGo_toNat_lt : ∀ f n : Nat, ∀ c ∈ natDigitsGo f n, c.toNat < 128
  | 0, n => by
    intro c hc
    simp [natDigitsGo] at hc
    rw [hc, digitCh_toNat]
    omega
  | f + 1, n => by
    intro c hc
    by_cases h : n < 10
    · simp [natDigitsGo, h] at hc
      rw [hc, digitCh_toNat]
      omega
    · simp only [natDigitsGo, h, if_false, List.mem_append, List.mem_singleton] at hc
      rcases hc with hc | hc
      · exact natDigitsGo_toNat_lt f (n / 10) c hc
      · rw [hc, digitCh_toNat]
        omega

theorem natDigits_toNat_lt (n : Nat) : ∀ c ∈ natDigits n, c.toNat < 128 :=
  natDigitsGo_toNat_lt n n

/-! ## Lemmas: the canonical JSON round-trip -/

theorem stripPre_self : ∀ p s : List Char, stripPre p (p ++ s) = some s
  | [], s => rfl
  | c :: cs, s => by simp [stripPre, stripPre_self cs s]

theorem takeTilQuote_append : ∀ xs : List Char, (∀ c ∈ xs, c ≠ '"') → ∀ ys,
    takeTilQuote (xs ++ '"' :: ys) = some (xs, ys)
  | [], _, ys => by simp [takeTilQuote]
  | c :: cs, h, ys => by
    have hc : c ≠ '"' := h c (by simp)
    simp [takeTilQuote, hc, takeTilQuote_append cs (fun d hd => h d (by simp [hd])) ys]

theorem takeDigits_append : ∀ ds : List Char, (∀ c ∈ ds, c.isDigit = true) →
    ∀ (e : Char) (r : List Char), e.isDigit = false →
    takeDigits (ds ++ e :: r) = (ds, e :: r)
  | [], _, e, r, he => by simp [takeDigits, he]
  | c :: cs, h, e, r, he => by
    have hc := h c (by simp)
    simp [takeDigits, hc, takeDigits_append cs (fun d hd => h d (by simp [hd])) e r he]

theorem jsonSafe_no_quote {s : String} (h : jsonSafe s = true) : ∀ c ∈ s.data, c ≠ '"' := by
  intro c hc
  have hall := (List.all_eq_true.mp h) c hc
  simp [jsonSafeChar] at hall
  exact hall.1.2

theorem jsonSafe_lt {s : String} (h : jsonSafe s = true) : ∀ c ∈ s.data, c.toNat < 128 := by
  intro c hc
  have hall := (List.all_eq_true.mp h) c hc
  simp [jsonSafeChar] at hall
  exact hall.1.1.2

/-- Parsing the canonical serialization shape recovers its three pieces. -/
theorem parseQRJson_canonical (idCs : List Char) (hid : ∀ c ∈ idCs, c ≠ '"')
    (tsDs : List Char) (hts : ∀ c ∈ tsDs, c.isDigit = true) (htsne : tsDs ≠ [])
    (vDs : List Char) (hvs : ∀ c ∈ vDs, c.isDigit = true) (hvne : vDs ≠ []) :
    parseQRJson (String.mk (jsonPre1 ++ (idCs ++ ('"' ::
        (jsonMid1 ++ (tsDs ++ (jsonMid2 ++ (vDs ++ ['\x7d']))))))))
      = some ⟨String.mk idCs, digitsVal tsDs, digitsVal vDs⟩ := by
  have h4 : jsonMid2 ++ (vDs ++ ['\x7d'])
      = ',' :: ('"' :: 'v' :: '"' :: ':' :: (vDs ++ ['\x7d'])) := rfl
  simp only [parseQRJson,
    show (String.mk (jsonPre1 ++ (idCs ++ ('"' ::
        (jsonMid1 ++ (tsDs ++ (jsonMid2 ++ (vDs ++ ['\x7d'])))))))).data
      = jsonPre1 ++ (idCs ++ ('"' :: (jsonMid1 ++ (tsDs ++ (jsonMid2 ++ (vDs ++ ['\x7d']))))))
      from rfl,
    h4, stripPre_self, takeTilQuote_append idCs hid,
    takeDigits_append tsDs hts ',' _ (by decide), htsne, if_false]
  rw [← h4]
  simp only [stripPre_self, takeDigits_append vDs hvs '\x7d' [] (by decide), hvne, if_false]
  simp

/-- `JSON.parse` inverts `JSON.stringify` on canonical payloads whose id
needs no escaping. -/
theorem parseQRJson_stringify (id : String) (ts v : Nat) (hsafe : jsonSafe id = true) :
    parseQRJson (jsonStringify ⟨id, ts, v⟩) = some ⟨id, ts, v⟩ := by
  unfold jsonStringify
  rw [parseQRJson_canonical id.data (jsonSafe_no_quote hsafe)
    (natDigits ts) (natDigits_isDigit ts) (natDigits_ne_nil ts)
    (natDigits v) (natDigits_isDigit v) (natDigits_ne_nil v)]
  simp [digitsVal_natDigits]

/-! ## Lemmas: byte/string round-trip and the verified-generation helper -/

theorem bytesToStr_strBytes (s : String) : bytesToStr (strBytes s) = s := by
  simp only [bytesToStr, strBytes, List.map_map]
  rw [show (Char.ofNat ∘ Char.toNat) = id from funext Char.ofNat_toNat, List.map_id]

/-- The serialized payload of a `jsonSafe` id is ASCII, hence its bytes are
below 256 (in fact below 128). -/
theorem jsonStringify_bytes_lt {id : String} (hsafe : jsonSafe id = true) (ts v : Nat) :
    ∀ b ∈ strBytes (jsonStringify ⟨id, ts, v⟩), b < 256 := by
  intro b hb
  simp only [strBytes, jsonStringify, List.mem_map] at hb
  obtain ⟨c, hc, rfl⟩ := hb
  simp only [List.mem_append, List.mem_cons, List.mem_singleton] at hc
  have hpre : ∀ d ∈ jsonPre1, Char.toNat d < 256 := by decide
  have hm1 : ∀ d ∈ jsonMid1, Char.toNat d < 256 := by decide
  have hm2 : ∀ d ∈ jsonMid2, Char.toNat d < 256 := by decide
  rcases hc with hc | hc | hc | hc | hc | hc | hc
  · exact hpre c hc
  · exact Nat.lt_trans (jsonSafe_lt hsafe c hc) (by omega)
  · rw [hc]; decide
  · exact hm1 c hc
  · exact Nat.lt_trans (natDigitsGo_toNat_lt ts ts c hc) (by omega)
  · exact hm2 c hc
  · rcases hc with hc | hc | hc
    · exact Nat.lt_trans (natDigitsGo_toNat_lt v v c hc) (by omega)
    · rw [hc]; decide
    · simp at hc

theorem strBytes_jsonStringify_ne_nil (q : QRPayload) :
    strBytes (jsonStringify q) ≠ [] := by
  simp [strBytes, jsonStringify, jsonPre1]

theorem b64encodeBytes_ne_nil : ∀ (b : Nat) (bs : List Nat), b64encodeBytes (b :: bs) ≠ []
  | b, [] => by simp [b64encodeBytes]
  | b, [b1] => by simp [b64encodeBytes]
  | b, b1 :: b2 :: bs => by simp [b64encodeBytes]

theorem b64encode_ne_empty {bs : List Nat} (h : bs ≠ []) : b64encode bs ≠ "" := by
  cases bs with
  | nil => exact absurd rfl h
  | cons b bs =>
    simp only [b64encode]
    intro hmk
    exact b64encodeBytes_ne_nil b bs (by
      have : (String.mk (b64encodeBytes (b :: bs))).data = ("" : String).data := by rw [hmk]
      simpa using this)

/-- What `verifyQRSignature` returns on the credential `generateQRPayload`
issued, for a matching keypair `k`: everything passes except possibly the
freshness check. -/
theorem verify_generate (C : CryptoPrimitive) (k : Nat) (id : String) (ts now : Nat)
    (hC : C.Pairing) (hsafe : jsonSafe id = true)
    (hsig : ∀ b ∈ C.sign k (strBytes (jsonStringify ⟨id, ts, 1⟩)), b < 256) :
    verifyQRSignature C k (generateQRPayload C k id ts).payload
      (generateQRPayload C k id ts).signature now
      = if (maxAge : Int) < (now : Int) - (ts : Int) then none else some ⟨id, ts, 1⟩ := by
  unfold generateQRPayload verifyQRSignature
  simp only
  rw [b64decode_b64encode (jsonStringify_bytes_lt hsafe ts 1),
    b64decode_b64encode hsig, hC k _, bytesToStr_strBytes,
    parseQRJson_stringify id ts 1 hsafe]
  rfl

/-! ## Lemmas: the concrete crypto instance -/

theorem consSig_pairing : consSig.Pairing := by
  intro k m
  simp [consSig]

theorem consSig_uniqueSig : consSig.UniqueSig := by
  intro k m s h
  simpa [consSig] using h

theorem consSig_keySep : consSig.KeySep := by
  intro k k' m hne heq
  exact hne (by injection heq)

theorem valToChar_mem (v : Nat) : valToChar v ∈ b64Chars := by
  by_cases h : v < 64
  · exact (by decide : ∀ w < 64, valToChar w ∈ b64Chars) v h
  · unfold valToChar
    rw [List.getD_eq_default]
    · decide
    · simp only [show b64Chars.length = 64 from rfl]
      omega

/-! ## Lemmas: log emission of the verification route -/

theorem resolveRecord_log_length (store : String → Option Permit) (now : Nat)
    (q : QRPayload) :
    (resolveRecord store now q).2.length
      = if (resolveRecord store now q).1.status = 200 then 1 else 0 := by
  unfold resolveRecord
  cases store q.id <;> rfl

theorem scansVerifyChecked_log_length (C : CryptoPrimitive) (pubKey : Nat)
    (store : String → Option Permit) (now : Nat) (payload signature : String) :
    (scansVerifyChecked C pubKey store now payload signature).2.length
      = if (scansVerifyChecked C pubKey store now payload signature).1.status = 200
        then 1 else 0 := by
  unfold scansVerifyChecked
  split
  · rfl
  · cases hv : verifyQRSignature C pubKey payload signature now with
    | none => rfl
    | some q => exact resolveRecord_log_length store now q

theorem scansVerifyParsed_log_length (C : CryptoPrimitive) (pubKey : Nat)
    (store : String → Option Permit) (now : Nat) (protocol hostname query : String) :
    (scansVerifyParsed C pubKey store now protocol hostname query).2.length
      = if (scansVerifyParsed C pubKey store now protocol hostname query).1.status = 200
        then 1 else 0 := by
  unfold scansVerifyParsed
  split
  · rfl
  · cases hd : searchGet (parseQueryPairs query) "d" with
    | none => rfl
    | some payload =>
      cases hs : searchGet (parseQueryPairs query) "s" with
      | none => rfl
      | some signature => exact scansVerifyChecked_log_length C pubKey store now payload signature

/-! ## The claims -/

/-- C2: with the default key material — `QR_PRIVATE_KEY` / `QR_PUBLIC_KEY`
unset, so `PRIVATE_KEY` and `PUBLIC_KEY` come from two independent
`generateKeyPairSync` calls — NO credential produced by `generateQRPayload`
ever verifies against the key `getPublicKey` returns: for every deterministic
strongly-unforgeable primitive whose distinct keypairs sign differently,
`verifyQRSignature` returns `none` on every freshly issued credential,
contradicting the claim that such a credential verifies successfully. -/
theorem c2_default_keys_never_verify (C : CryptoPrimitive) (id : String) (ts now : Nat)
    (hu : C.UniqueSig) (hk : C.KeySep) (hsafe : jsonSafe id = true)
    (hsig : ∀ b ∈ C.sign PRIVATE_KEY (strBytes (jsonStringify ⟨id, ts, 1⟩)), b < 256) :
    verifyQRSignature C getPublicKey (generateQRPayload C PRIVATE_KEY id ts).payload
      (generateQRPayload C PRIVATE_KEY id ts).signature now = none := by
  unfold generateQRPayload verifyQRSignature
  simp only
  rw [b64decode_b64encode (jsonStringify_bytes_lt hsafe ts 1), b64decode_b64encode hsig]
  have hv : C.verify getPublicKey (strBytes (jsonStringify ⟨id, ts, 1⟩))
      (C.sign PRIVATE_KEY (strBytes (jsonStringify ⟨id, ts, 1⟩))) = false := by
    cases hb : C.verify getPublicKey (strBytes (jsonStringify ⟨id, ts, 1⟩))
        (C.sign PRIVATE_KEY (strBytes (jsonStringify ⟨id, ts, 1⟩))) with
    | false => rfl
    | true =>
      have heq := hu getPublicKey _ _ hb
      exact absurd heq.symm (hk getPublicKey PRIVATE_KEY _ (by decide))
  rw [hv]
  rfl

theorem c2_default_keys_never_verify_witness :
    consSig.UniqueSig ∧ consSig.KeySep ∧ jsonSafe "R1" = true
    ∧ (∀ b ∈ consSig.sign PRIVATE_KEY (strBytes (jsonStringify ⟨"R1", 0, 1⟩)), b < 256)
    ∧ verifyQRSignature consSig getPublicKey
        (generateQRPayload consSig PRIVATE_KEY "R1" 0).payload
        (generateQRPayload consSig PRIVATE_KEY "R1" 0).signature 0 = none :=
  ⟨consSig_uniqueSig, consSig_keySep, by decide, by decide,
    c2_default_keys_never_verify consSig "R1" 0 0 consSig_uniqueSig consSig_keySep
      (by decide) (by decide)⟩

/-- C6: the freshness boundary of `verifyQRSignature` (for a matching
keypair): a credential issued at `ts` is rejected (`none`) when checked at
`now = ts + maxAge + 1` (issuedAt one millisecond older than the window),
and accepted — not rejected for staleness, in fact fully verified — when
checked at `now = ts + maxAge - 1`. -/
theorem c6_freshness_boundary (C : CryptoPrimitive) (k : Nat) (id : String) (ts : Nat)
    (hC : C.Pairing) (hsafe : jsonSafe id = true)
    (hsig : ∀ b ∈ C.sign k (strBytes (jsonStringify ⟨id, ts, 1⟩)), b < 256) :
    verifyQRSignature C k (generateQRPayload C k id ts).payload
        (generateQRPayload C k id ts).signature (ts + maxAge + 1) = none
    ∧ verifyQRSignature C k (generateQRPayload C k id ts).payload
        (generateQRPayload C k id ts).signature (ts + maxAge - 1) = some ⟨id, ts, 1⟩ := by
  constructor
  · rw [verify_generate C k id ts _ hC hsafe hsig]
    have h : (maxAge : Int) < ((ts + maxAge + 1 : Nat) : Int) - (ts : Int) := by
      push_cast
      omega
    rw [if_pos h]
  · rw [verify_generate C k id ts _ hC hsafe hsig]
    have h : ¬ (maxAge : Int) < ((ts + maxAge - 1 : Nat) : Int) - (ts : Int) := by
      have hm : maxAge = 86400000 := rfl
      omega
    rw [if_neg h]

theorem c6_freshness_boundary_witness :
    consSig.Pairing ∧ jsonSafe "a" = true
    ∧ (∀ b ∈ consSig.sign 5 (strBytes (jsonStringify ⟨"a", 0, 1⟩)), b < 256)
    ∧ (verifyQRSignature consSig 5 (generateQRPayload consSig 5 "a" 0).payload
        (generateQRPayload consSig 5 "a" 0).signature (0 + maxAge + 1) = none
      ∧ verifyQRSignature consSig 5 (generateQRPayload consSig 5 "a" 0).payload
        (generateQRPayload consSig 5 "a" 0).signature (0 + maxAge - 1) = some ⟨"a", 0, 1⟩) :=
  ⟨consSig_pairing, by decide, by decide,
    c6_freshness_boundary consSig 5 "a" 0 consSig_pairing (by decide) (by decide)⟩

/-- C8: field round-trip — decoding an encoded payload exactly as
`verifyQRSignature` does it (lenient base64 decode, byte-to-text, JSON
parse) on the payload `generateQRPayload` builds (JSON serialize, UTF-8
bytes, base64 encode) recovers `id`, `ts` and `v` unchanged, for every
recordId that needs no JSON escaping and arbitrary timestamp and version. -/
theorem c8_payload_roundtrip (id : String) (ts v : Nat) (hsafe : jsonSafe id = true) :
    parseQRJson (bytesToStr (b64decode (b64encode (strBytes (jsonStringify ⟨id, ts, v⟩)))))
      = some ⟨id, ts, v⟩ := by
  rw [b64decode_b64encode (jsonStringify_bytes_lt hsafe ts v), bytesToStr_strBytes,
    parseQRJson_stringify id ts v hsafe]

theorem c8_payload_roundtrip_witness :
    jsonSafe "R1" = true
    ∧ parseQRJson (bytesToStr (b64decode (b64encode
        (strBytes (jsonStringify ⟨"R1", 1700000000000, 1⟩))))) = some ⟨"R1", 1700000000000, 1⟩ :=
  ⟨by decide, c8_payload_roundtrip "R1" 1700000000000 1 (by decide)⟩

/-- C9 (amended): `generateQRPayload` performs no input validation at all —
there is no `EncodingError` path.  Even the empty recordId yields a normal
signed credential, which (under a matching keypair) verifies successfully to
the payload `⟨"", ts, 1⟩`; the schema version is hard-coded to `1`, so a
non-positive version cannot arise. -/
theorem c9_no_validation_empty_id (C : CryptoPrimitive) (k ts : Nat)
    (hC : C.Pairing)
    (hsig : ∀ b ∈ C.sign k (strBytes (jsonStringify ⟨"", ts, 1⟩)), b < 256) :
    verifyQRSignature C k (generateQRPayload C k "" ts).payload
      (generateQRPayload C k "" ts).signature ts = some ⟨"", ts, 1⟩ := by
  rw [verify_generate C k "" ts ts hC (by decide) hsig]
  have h : ¬ (maxAge : Int) < (ts : Int) - (ts : Int) := by
    have hm : maxAge = 86400000 := rfl
    omega
  simp [h]

theorem c9_no_validation_empty_id_witness :
    consSig.Pairing
    ∧ (∀ b ∈ consSig.sign 9 (strBytes (jsonStringify ⟨"", 3, 1⟩)), b < 256)
    ∧ verifyQRSignature consSig 9 (generateQRPayload consSig 9 "" 3).payload
        (generateQRPayload consSig 9 "" 3).signature 3 = some ⟨"", 3, 1⟩ :=
  ⟨consSig_pairing, by decide,
    c9_no_validation_empty_id consSig 9 3 consSig_pairing (by decide)⟩

/-- C9, counterexample to the claim as stated: for the empty recordId,
`generateQRPayload` does not fail — it produces this concrete encoded
payload, and the resulting signed credential even verifies. -/
theorem c9_empty_id_produces_credential :
    (generateQRPayload consSig 7 "" 0).payload = "eyJpZCI6IiIsInRzIjowLCJ2IjoxfQ=="
    ∧ verifyQRSignature consSig 7 (generateQRPayload consSig 7 "" 0).payload
        (generateQRPayload consSig 7 "" 0).signature 0 = some ⟨"", 0, 1⟩ :=
  ⟨by decide, by decide⟩

/-- C10: totality and success characterization of `verifyQRSignature` —
for every pair of input strings (base64 or not, JSON or not) and every
clock, the function returns `some q` exactly when the signature check over
the leniently decoded bytes passes, the decoded payload parses as a
canonical `QRPayload`, and `q` is within the freshness window; in every
other case it returns `none` (the embedding is a total function, mirroring
the catch-all that maps every thrown decode/crypto/parse error to
`null`). -/
theorem c10_verify_total_characterization (C : CryptoPrimitive) (pubKey : Nat)
    (payload signature : String) (now : Nat) (q : QRPayload) :
    verifyQRSignature C pubKey payload signature now = some q
      ↔ (C.verify pubKey (b64decode payload) (b64decode signature) = true
        ∧ parseQRJson (bytesToStr (b64decode payload)) = some q
        ∧ ¬ (maxAge : Int) < (now : Int) - (q.ts : Int)) := by
  unfold verifyQRSignature
  simp only
  cases hv : C.verify pubKey (b64decode payload) (b64decode signature) with
  | false => simp
  | true =>
    cases hp : parseQRJson (bytesToStr (b64decode payload)) with
    | none => simp
    | some p =>
      simp only [if_true]
      by_cases hf : (maxAge : Int) < (now : Int) - (p.ts : Int)
      · rw [if_pos hf]
        constructor
        · intro h
          exact Option.noConfusion h
        · rintro ⟨_, hpq, hfr⟩
          obtain rfl : p = q := by injection hpq
          exact absurd hf hfr
      · rw [if_neg hf]
        constructor
        · intro h
          obtain rfl : p = q := by injection h
          exact ⟨by trivial, rfl, hf⟩
        · rintro ⟨_, hpq, _⟩
          exact hpq

/-- C1: the offline path does not resolve the record identifier the online
path resolves.  For the permit `pOne` (id `"p1"`), present in the record
store AND in the verification cache under its id — exactly as `cachePermit`
stores it — online verification of its credential succeeds (`valid`, with the
record fields, one log row), while `verifyOffline` on the very same scan and
the very same cache returns `invalid` with the cache-miss message: it looks
up the raw base64 `d` parameter instead of the decoded `id`, so the lookup
can never hit. -/
theorem c1_offline_cache_lookup_mismatch :
    (scansVerify consSig 5 storeOne 1000 qrOne).1.result = some "valid"
    ∧ (scansVerify consSig 5 storeOne 1000 qrOne).1.permit = some pOne.view
    ∧ (scansVerify consSig 5 storeOne 1000 qrOne).2
        = [⟨some "c1", none, "valid", "online"⟩]
    ∧ verifyOffline storeOne 1000 qrOne
        = ⟨"invalid", none, none, "Permit non trouvé en cache local"⟩ :=
  ⟨by decide, by decide, by decide, by decide⟩

/-- C3 (amended): the online route writes a scan log exactly on its success
branch — one `ScanLog` when the reply is `200` (`valid` / `expired`), none
for any other outcome (malformed URI, missing parameters, failed signature
or freshness check, unknown record, thrown error); the offline path contains
no log write at all. -/
theorem c3_scanlog_only_on_success (C : CryptoPrimitive) (pubKey : Nat)
    (store : String → Option Permit) (now : Nat) (qrData : String) :
    ((scansVerify C pubKey store now qrData).2).length
      = if (scansVerify C pubKey store now qrData).1.status = 200 then 1 else 0 := by
  unfold scansVerify
  cases hp : parseURL qrData with
  | none => rfl
  | some t =>
    obtain ⟨protocol, hostname, query⟩ := t
    exact scansVerifyParsed_log_length C pubKey store now protocol hostname query

/-- C3, counterexample to the claim as stated: a completed online
verification that terminates in the `invalid` classification (tampered
signature) produces NO `ScanLogEntry` — the log list is empty, not a
singleton. -/
theorem c3_invalid_outcome_logs_nothing :
    (scansVerify consSig 5 storeOne 1000 badSigQR).1.result = some "invalid"
    ∧ (scansVerify consSig 5 storeOne 1000 badSigQR).2 = [] :=
  ⟨by decide, by decide⟩

/-- C4 (amended): for a well-formed scan the client falls back to offline
verification whenever the online reply is non-ok — including replies in
which the online verifier itself classified the credential (invalid
signature, unknown record, all sent with status 400/404) — while a fetch
that throws (the genuine network failure) is NOT retried offline but
surfaced as a generic invalid result. -/
theorem c4_fallback_on_any_non_ok (cache : String → Option Permit) (now : Nat)
    (qrData : String) (body : QRScanResult)
    (hfmt : strStarts "peche://verify" qrData = true) :
    verifyQRCode true (some (false, body)) cache now qrData = verifyOffline cache now qrData
    ∧ verifyQRCode true none cache now qrData
        = ⟨"invalid", none, none, "Erreur lors de la vérification du QR code"⟩ := by
  constructor <;> simp [verifyQRCode, hfmt]

theorem c4_fallback_on_any_non_ok_witness :
    strStarts "peche://verify" "peche://verify?d=ab&s=cd" = true
    ∧ (verifyQRCode true (some (false, ⟨"invalid", none, none, "Invalid QR code signature"⟩))
          (fun _ => none) 0 "peche://verify?d=ab&s=cd"
        = verifyOffline (fun _ => none) 0 "peche://verify?d=ab&s=cd"
      ∧ verifyQRCode true none (fun _ => none) 0 "peche://verify?d=ab&s=cd"
        = ⟨"invalid", none, none, "Erreur lors de la vérification du QR code"⟩) :=
  ⟨by decide, c4_fallback_on_any_non_ok (fun _ => none) 0 "peche://verify?d=ab&s=cd"
    ⟨"invalid", none, none, "Invalid QR code signature"⟩ (by decide)⟩

/-- C4, counterexample to the claim as stated: the online verifier has
classified the credential (non-ok reply whose body carries the
`Invalid QR code signature` classification), yet the client runs offline
verification anyway and surfaces ITS result — the cache-miss message — not
the online classification. -/
theorem c4_classified_failure_retried_offline :
    verifyQRCode true (some (false, ⟨"invalid", none, none, "Invalid QR code signature"⟩))
        storeOne 1000 qrOne
      = ⟨"invalid", none, none, "Permit non trouvé en cache local"⟩
    ∧ (⟨"invalid", none, none, "Permit non trouvé en cache local"⟩ : QRScanResult)
      ≠ ⟨"invalid", none, none, "Invalid QR code signature"⟩ :=
  ⟨by decide, by decide⟩

/-- C5 (amended): a credential rejected for staleness produces exactly the
same reply — status 400, result `invalid`, message
`Invalid QR code signature` — as a cryptographic signature failure, because
`verifyQRSignature` collapses both cases into the same `null` and the route
maps that `null` to the single signature-failure message: the two messages
are NOT distinct. -/
theorem c5_stale_same_message_as_bad_signature (C : CryptoPrimitive) (k : Nat)
    (store : String → Option Permit) (id : String) (ts now : Nat) (qrData q : String)
    (hC : C.Pairing) (hsafe : jsonSafe id = true)
    (hsig : ∀ b ∈ C.sign k (strBytes (jsonStringify ⟨id, ts, 1⟩)), b < 256)
    (hsne : C.sign k (strBytes (jsonStringify ⟨id, ts, 1⟩)) ≠ [])
    (hstale : (maxAge : Int) < (now : Int) - (ts : Int))
    (hurl : parseURL qrData = some ("peche:", "verify", q))
    (hd : searchGet (parseQueryPairs q) "d" = some (generateQRPayload C k id ts).payload)
    (hs : searchGet (parseQueryPairs q) "s" = some (generateQRPayload C k id ts).signature) :
    scansVerify C k store now qrData
      = (⟨400, some "invalid", none, none, "Invalid QR code signature"⟩, []) := by
  have hpne : (generateQRPayload C k id ts).payload ≠ "" :=
    b64encode_ne_empty (strBytes_jsonStringify_ne_nil ⟨id, ts, 1⟩)
  have hsigne : (generateQRPayload C k id ts).signature ≠ "" :=
    b64encode_ne_empty hsne
  have hnone : verifyQRSignature C k (generateQRPayload C k id ts).payload
      (generateQRPayload C k id ts).signature now = none := by
    rw [verify_generate C k id ts now hC hsafe hsig, if_pos hstale]
  unfold scansVerify
  rw [hurl]
  show scansVerifyParsed C k store now "peche:" "verify" q = _
  unfold scansVerifyParsed
  rw [hd, hs]
  show scansVerifyChecked C k store now (generateQRPayload C k id ts).payload
    (generateQRPayload C k id ts).signature = _
  unfold scansVerifyChecked
  simp [hpne, hsigne, hnone]

theorem c5_stale_same_message_witness :
    consSig.Pairing ∧ jsonSafe "p1" = true
    ∧ (∀ b ∈ consSig.sign 5 (strBytes (jsonStringify ⟨"p1", 0, 1⟩)), b < 256)
    ∧ consSig.sign 5 (strBytes (jsonStringify ⟨"p1", 0, 1⟩)) ≠ []
    ∧ (maxAge : Int) < ((maxAge + 1 : Nat) : Int) - ((0 : Nat) : Int)
    ∧ parseURL qrOne = some ("peche:", "verify",
        "d=" ++ credOne.payload ++ "&s=" ++ credOne.signature)
    ∧ searchGet (parseQueryPairs ("d=" ++ credOne.payload ++ "&s=" ++ credOne.signature)) "d"
        = some (generateQRPayload consSig 5 "p1" 0).payload
    ∧ searchGet (parseQueryPairs ("d=" ++ credOne.payload ++ "&s=" ++ credOne.signature)) "s"
        = some (generateQRPayload consSig 5 "p1" 0).signature
    ∧ scansVerify consSig 5 storeOne (maxAge + 1) qrOne
        = (⟨400, some "invalid", none, none, "Invalid QR code signature"⟩, []) :=
  ⟨consSig_pairing, by decide, by decide, by decide, by decide, by decide, by decide, by decide,
    c5_stale_same_message_as_bad_signature consSig 5 storeOne "p1" 0 (maxAge + 1) qrOne
      ("d=" ++ credOne.payload ++ "&s=" ++ credOne.signature)
      consSig_pairing (by decide) (by decide) (by decide) (by decide)
      (by decide) (by decide) (by decide)⟩

/-- C5, counterexample to the claim as stated: the reply to a stale
credential (valid signature, `issuedAt` outside the window) and the reply to
a tampered signature carry the IDENTICAL message, so the stale message is
not distinct from the signature-failure message. -/
theorem c5_stale_and_tampered_same_message :
    (scansVerify consSig 5 storeOne (maxAge + 1) qrOne).1.message
      = (scansVerify consSig 5 storeOne 1000 badSigQR).1.message
    ∧ (scansVerify consSig 5 storeOne (maxAge + 1) qrOne).1.message
      = "Invalid QR code signature" :=
  ⟨by decide, by decide⟩

/-- C7 (amended): every character `b64encodeBytes` emits is either a
standard-base64 alphabet character (`A`–`Z`, `a`–`z`, `0`–`9`, `+`, `/`) or
the padding `=` — the codec produces standard base64, not URL-safe base64,
and the URI template interpolates it with no percent-encoding. -/
theorem c7_output_standard_base64 : ∀ bs : List Nat, ∀ c ∈ b64encodeBytes bs,
    c ∈ b64Chars ∨ c = '='
  | [] => by simp [b64encodeBytes]
  | [b0] => by
    intro c hc
    simp only [b64encodeBytes, List.mem_cons, List.not_mem_nil, or_false] at hc
    rcases hc with hc | hc | hc | hc <;> rw [hc]
    · exact Or.inl (valToChar_mem _)
    · exact Or.inl (valToChar_mem _)
    · exact Or.inr rfl
    · exact Or.inr rfl
  | [b0, b1] => by
    intro c hc
    simp only [b64encodeBytes, List.mem_cons, List.not_mem_nil, or_false] at hc
    rcases hc with hc | hc | hc | hc <;> rw [hc]
    · exact Or.inl (valToChar_mem _)
    · exact Or.inl (valToChar_mem _)
    · exact Or.inl (valToChar_mem _)
    · exact Or.inr rfl
  | b0 :: b1 :: b2 :: rest => by
    intro c hc
    simp only [b64encodeBytes, List.mem_cons] at hc
    rcases hc with hc | hc | hc | hc | hc
    · rw [hc]; exact Or.inl (valToChar_mem _)
    · rw [hc]; exact Or.inl (valToChar_mem _)
    · rw [hc]; exact Or.inl (valToChar_mem _)
    · rw [hc]; exact Or.inl (valToChar_mem _)
    · exact c7_output_standard_base64 rest c hc

theorem c7_output_standard_base64_witness :
    'A' ∈ b64encodeBytes [0] ∧ ('A' ∈ b64Chars ∨ 'A' = '=') :=
  ⟨by decide, c7_output_standard_base64 [0] 'A' (by decide)⟩

/-- C7, counterexample to the claim as stated: the credential issued for
recordId `"??"` has a `d` value containing `/` — a character outside the
URL-safe base64 alphabet — with no percent-encoding anywhere in the value
(no `%` occurs), so the generated URI parameter is neither URL-safe base64
nor percent-encoded. -/
theorem c7_not_urlsafe :
    ('/' ∈ (generateQRPayload consSig 3 "??" 0).payload.data)
    ∧ ((generateQRPayload consSig 3 "??" 0).payload.data.all urlSafeB64Char = false)
    ∧ ('%' ∉ (generateQRPayload consSig 3 "??" 0).payload.data) :=
  ⟨by decide, by decide, by decide⟩

end Permiscard
